import Mathlib

/-!
Shallow embedding of `src/dice-roller-app/script.js`.

The script defines five functions inside an IIFE:

* `generateDiceNumber()            = Math.floor(Math.random() * 6) + 1`
* `generateDiceNumbers(n)          = Array.from({length: n}, () => generateDiceNumber())`
* `displayDiceNumbers(nums)        : diceContainer.innerHTML =
     nums.map(number => '<div class="dice-face">' + number + '</div>').join('')`
* `rollDice()`  reads `#dice-input`'s raw string value, generates, displays
* `resetDice()` clears the container's innerHTML and the input's value

The embedding models `Math.random()` as an explicit stream of rationals
(each call consumes the next element), the DOM as an explicit state record,
and the host platform's numeric coercion (`ToNumber` on strings followed by
`Array.from`'s `ToLength`) as executable functions on the decimal-string
fragment that the claims exercise.
-/

/-- Characters treated as whitespace when JS `ToNumber` trims a string. -/
def isWsChar (c : Char) : Bool :=
  c = ' ' || c = '\t' || c = '\n' || c = '\r' || c = '\x0b' || c = '\x0c'

/-- The whitespace-trimmed character list of a string (JS trims both ends
before interpreting a string as a number). -/
def jsTrim (s : String) : List Char :=
  ((s.data.dropWhile isWsChar).reverse.dropWhile isWsChar).reverse

/-- Value of a list of decimal digit characters. -/
def natOfDigits (ds : List Char) : ℕ :=
  ds.foldl (fun a c => 10 * a + (c.toNat - 48)) 0

/-- Value of `ds.fs` read as a decimal numeral with fractional part `fs`. -/
def decValue (ds fs : List Char) : ℚ :=
  (natOfDigits ds : ℚ) + (natOfDigits fs : ℚ) / (10 : ℚ) ^ fs.length

/-- Unsigned decimal numeral: digits, optionally with a decimal point
(JS accepts `5`, `5.`, `.5`, `5.25`); anything else is NaN (`none`). -/
def parseUnsigned (l : List Char) : Option ℚ :=
  match l.span Char.isDigit with
  | (ds, []) => if ds.isEmpty then none else some (natOfDigits ds : ℚ)
  | (ds, '.' :: fs) =>
      if fs.all Char.isDigit && !(ds.isEmpty && fs.isEmpty) then some (decValue ds fs)
      else none
  | _ => none

/-- Optional sign in front of an unsigned decimal numeral. -/
def parseSigned (l : List Char) : Option ℚ :=
  match l with
  | '+' :: rest => parseUnsigned rest
  | '-' :: rest => Option.map Neg.neg (parseUnsigned rest)
  | _ => parseUnsigned l

/-- JS `ToNumber` on a string, restricted to the decimal fragment the claims
exercise: a whitespace-only string coerces to `0`; an optionally signed
decimal numeral coerces to its value; everything else (including exponent,
hex and `Infinity` forms, which no claim touches) is NaN, returned as
`none`. -/
def strToNumber (s : String) : Option ℚ :=
  if (jsTrim s).isEmpty then some 0 else parseSigned (jsTrim s)

/-- `ToLength` applied to a coerced numeric value, as `Array.from` applies it
to the `length` property: NaN and non-positive values clamp to `0`, the
fractional part is discarded, and the result is capped at `2^53 - 1`. -/
def toLength (x : Option ℚ) : ℕ :=
  match x with
  | none => 0
  | some q => min (Int.toNat ⌊q⌋) (2 ^ 53 - 1)

/-- `generateDiceNumber()` with the consumed `Math.random()` value `r` made
explicit: `Math.floor(r * 6) + 1`. -/
def generateDiceNumber (r : ℚ) : ℤ :=
  ⌊r * 6⌋ + 1

/-- `generateDiceNumbers(numberOfDice)` for a non-negative integer count
(`ToLength` of a non-negative integer is itself): `Array.from({length: n})`
builds `n` slots and fills slot `i` with the `i`-th draw of the random
stream `rand`. -/
def generateDiceNumbersN (rand : ℕ → ℚ) (numberOfDice : ℕ) : List ℤ :=
  (List.range numberOfDice).map fun i => generateDiceNumber (rand i)

/-- `generateDiceNumbers(numberOfDice)` as `rollDice` calls it, with the raw
input-field string as argument: `Array.from` coerces the `length` property
via `ToNumber` and `ToLength`. -/
def generateDiceNumbers (rand : ℕ → ℚ) (numberOfDice : String) : List ℤ :=
  generateDiceNumbersN rand (toLength (strToNumber numberOfDice))

/-- The DOM state the script touches: the `.dice-container`'s innerHTML, the
`#dice-input`'s value, and the stream of future `Math.random()` results. -/
structure AppState where
  diceContainer : String
  diceInput : String
  randoms : ℕ → ℚ

/-- One rendered dice block: the template literal
`<div class="dice-face">${number}</div>`. -/
def diceFaceDiv (number : ℤ) : String :=
  "<div class=\"dice-face\">" ++ toString number ++ "</div>"

/-- The string assigned to `diceContainer.innerHTML`:
`diceNumbers.map(...).join('')`. -/
def renderDice (diceNumbers : List ℤ) : String :=
  String.join (diceNumbers.map diceFaceDiv)

/-- `displayDiceNumbers(diceNumbers)`: assigns the joined block string to the
container's innerHTML, replacing whatever was there. -/
def displayDiceNumbers (diceNumbers : List ℤ) (w : AppState) : AppState :=
  { w with diceContainer := renderDice diceNumbers }

/-- `rollDice()`: reads the raw input string, generates (consuming as many
stream elements as dice are built), and displays. -/
def rollDice (w : AppState) : AppState :=
  displayDiceNumbers (generateDiceNumbers w.randoms w.diceInput)
    { w with randoms := fun i => w.randoms (i + toLength (strToNumber w.diceInput)) }

/-- `resetDice()`: clears the container's innerHTML and the input's value. -/
def resetDice (w : AppState) : AppState :=
  { w with diceContainer := "", diceInput := "" }

/-- Concrete state for the roll-idempotence counterexample: one die
requested, first random draw `0`, later draws `5/6`. -/
def w8 : AppState :=
  ⟨"", "1", fun i => if i = 0 then 0 else 5 / 6⟩

theorem generateDiceNumber_bounds (r : ℚ) (h0 : 0 ≤ r) (h1 : r < 1) :
    1 ≤ generateDiceNumber r ∧ generateDiceNumber r ≤ 6 := by
  have hl : (0 : ℤ) ≤ ⌊r * 6⌋ := Int.floor_nonneg.mpr (by positivity)
  have hu : ⌊r * 6⌋ < 6 := by
    rw [Int.floor_lt]
    push_cast
    nlinarith
  unfold generateDiceNumber
  omega

/-- C5: each single draw computes `Math.floor(r * 6) + 1` from the sampled
`r` in `[0,1)`, and the result lies in `{1,...,6}`. -/
theorem generateDiceNumber_floor_bounds (r : ℚ) (h0 : 0 ≤ r) (h1 : r < 1) :
    generateDiceNumber r = ⌊r * 6⌋ + 1 ∧
    1 ≤ generateDiceNumber r ∧ generateDiceNumber r ≤ 6 :=
  ⟨rfl, generateDiceNumber_bounds r h0 h1⟩

/-- Witness for C5 at the concrete sample `r = 1/3`. -/
theorem generateDiceNumber_floor_bounds_witness :
    generateDiceNumber (1 / 3) = ⌊(1 / 3 : ℚ) * 6⌋ + 1 ∧
    1 ≤ generateDiceNumber (1 / 3) ∧ generateDiceNumber (1 / 3) ≤ 6 :=
  generateDiceNumber_floor_bounds (1 / 3) (by norm_num) (by norm_num)

/-- C1: generating `N` dice from a stream of samples in `[0,1)` yields
exactly `N` face values, each in `[1,6]`. -/
theorem generateDiceNumbers_length_range (rand : ℕ → ℚ) (numberOfDice : ℕ)
    (h : ∀ i, 0 ≤ rand i ∧ rand i < 1) :
    (generateDiceNumbersN rand numberOfDice).length = numberOfDice ∧
    ∀ x ∈ generateDiceNumbersN rand numberOfDice, 1 ≤ x ∧ x ≤ 6 := by
  constructor
  · simp [generateDiceNumbersN]
  · intro x hx
    simp only [generateDiceNumbersN, List.mem_map, List.mem_range] at hx
    obtain ⟨i, _, rfl⟩ := hx
    exact generateDiceNumber_bounds (rand i) (h i).1 (h i).2

/-- Witness for C1 at the constant stream `1/2` and count `2`. -/
theorem generateDiceNumbers_length_range_witness :
    (generateDiceNumbersN (fun _ => 1 / 2) 2).length = 2 :=
  (generateDiceNumbers_length_range (fun _ => 1 / 2) 2 (fun _ => by norm_num)).1

/-- C3: from every prior state, `resetDice` leaves the display's innerHTML
empty and the input field's value empty. -/
theorem resetDice_clears_state (w : AppState) :
    (resetDice w).diceContainer = "" ∧ (resetDice w).diceInput = "" :=
  ⟨rfl, rfl⟩

/-- C6: rendering a roll result overwrites the container's innerHTML, so the
final display depends only on the roll result, not on any prior display
state. -/
theorem displayDiceNumbers_replaces_prior_state (diceNumbers : List ℤ)
    (w1 w2 : AppState) :
    (displayDiceNumbers diceNumbers w1).diceContainer =
      (displayDiceNumbers diceNumbers w2).diceContainer :=
  rfl

/-- C7: a requested count of `0` generates the empty roll result, and
rendering it leaves the display empty. -/
theorem render_zero_dice_empty (rand : ℕ → ℚ) (w : AppState) :
    generateDiceNumbersN rand 0 = [] ∧
    (displayDiceNumbers (generateDiceNumbersN rand 0) w).diceContainer = "" :=
  ⟨rfl, rfl⟩

/-- C2 (code bug): for face value `1` the code writes the bare numeral block
`<div class="dice-face">1</div>` into the container; no 3x3 dot-pattern
markup (in particular no activated center cell) is produced, contrary to the
claim and to the repository's own design note. -/
theorem displayDiceNumbers_face_one_numeral (w : AppState) :
    (displayDiceNumbers [1] w).diceContainer = "<div class=\"dice-face\">1</div>" :=
  rfl

/-- C4: `rollDice` hands the raw input string to `generateDiceNumbers`
unchanged, never writes to the input field, and its display output depends
on the raw value only through the platform coercion `toLength` composed with
`strToNumber` — there is no guard, clamp or error signal of its own. -/
theorem rollDice_no_guard (w : AppState) :
    (rollDice w).diceInput = w.diceInput ∧
    (rollDice w).diceContainer = renderDice (generateDiceNumbers w.randoms w.diceInput) ∧
    ∀ w' : AppState, w'.randoms = w.randoms →
      toLength (strToNumber w'.diceInput) = toLength (strToNumber w.diceInput) →
      (rollDice w').diceContainer = (rollDice w).diceContainer := by
  refine ⟨rfl, rfl, fun w' hr hl => ?_⟩
  show renderDice (generateDiceNumbersN w'.randoms (toLength (strToNumber w'.diceInput))) =
    renderDice (generateDiceNumbersN w.randoms (toLength (strToNumber w.diceInput)))
  rw [hr, hl]

/-- Witness for C4: a non-numeric count and a negative count are handled
identically (both coerce to length `0`), with no error on either path. -/
theorem rollDice_no_guard_witness :
    (rollDice ⟨"", "abc", fun _ => 1 / 2⟩).diceContainer =
      (rollDice ⟨"", "-3", fun _ => 1 / 2⟩).diceContainer :=
  (rollDice_no_guard ⟨"", "-3", fun _ => 1 / 2⟩).2.2 ⟨"", "abc", fun _ => 1 / 2⟩ rfl (by
    have h1 : strToNumber "abc" = none := rfl
    have h2 : strToNumber "-3" = some (-((3 : ℕ) : ℚ)) := rfl
    show toLength (strToNumber "abc") = toLength (strToNumber "-3")
    rw [h1, h2]
    show 0 = min (Int.toNat ⌊(-((3 : ℕ) : ℚ))⌋) (2 ^ 53 - 1)
    norm_num
    decide)

/-- C9: when the input coerces to NaN or to a non-positive number (the empty
string coerces to `0`), the generator builds the empty roll result and the
roll leaves the display empty — no failure. -/
theorem rollDice_invalid_input_empty (w : AppState)
    (h : strToNumber w.diceInput = none ∨
      ∃ q, strToNumber w.diceInput = some q ∧ q ≤ 0) :
    generateDiceNumbers w.randoms w.diceInput = [] ∧
    (rollDice w).diceContainer = "" := by
  have hz : toLength (strToNumber w.diceInput) = 0 := by
    rcases h with h | ⟨q, hq, hq0⟩
    · rw [h]
      rfl
    · rw [hq]
      show min (Int.toNat ⌊q⌋) (2 ^ 53 - 1) = 0
      have hf : ⌊q⌋ ≤ 0 := Int.floor_nonpos hq0
      omega
  constructor
  · show generateDiceNumbersN w.randoms (toLength (strToNumber w.diceInput)) = []
    rw [hz]
    rfl
  · show renderDice
      (generateDiceNumbersN w.randoms (toLength (strToNumber w.diceInput))) = ""
    rw [hz]
    rfl

/-- Witness for C9 at the empty input string (which coerces to `0`). -/
theorem rollDice_invalid_input_empty_witness :
    generateDiceNumbers (fun _ => 1 / 2) "" = [] ∧
    (rollDice ⟨"stale", "", fun _ => 1 / 2⟩).diceContainer = "" :=
  rollDice_invalid_input_empty ⟨"stale", "", fun _ => 1 / 2⟩
    (Or.inr ⟨0, rfl, le_refl 0⟩)

theorem generateDiceNumbersN_length (rand : ℕ → ℚ) (k : ℕ) :
    (generateDiceNumbersN rand k).length = k := by
  simp [generateDiceNumbersN]

/-- C8 counterexample: rolling twice from the concrete state `w8` (one die
requested, random stream `0, 5/6, 5/6, ...`) displays a six where a single
roll displays a one, so `rollDice` twice is not the same as `rollDice`
once. -/
theorem rollDice_not_idempotent_cex :
    (rollDice (rollDice w8)).diceContainer ≠ (rollDice w8).diceContainer := by
  have ht : toLength (strToNumber "1") = 1 := by
    have h : strToNumber "1" = some ((1 : ℕ) : ℚ) := rfl
    rw [h]
    show min (Int.toNat ⌊((1 : ℕ) : ℚ)⌋) (2 ^ 53 - 1) = 1
    norm_num
  have h1 : (rollDice w8).diceContainer = diceFaceDiv 1 := by
    show renderDice
      (generateDiceNumbersN w8.randoms (toLength (strToNumber w8.diceInput))) =
        diceFaceDiv 1
    have hin : w8.diceInput = "1" := rfl
    rw [hin, ht]
    show String.join [diceFaceDiv (generateDiceNumber (w8.randoms 0))] = diceFaceDiv 1
    have hr : w8.randoms 0 = 0 := rfl
    rw [hr]
    have hg : generateDiceNumber 0 = 1 := by
      unfold generateDiceNumber
      norm_num
    rw [hg]
    rfl
  have h2 : (rollDice (rollDice w8)).diceContainer = diceFaceDiv 6 := by
    show renderDice
      (generateDiceNumbersN (rollDice w8).randoms
        (toLength (strToNumber (rollDice w8).diceInput))) = diceFaceDiv 6
    have hin : (rollDice w8).diceInput = "1" := rfl
    rw [hin, ht]
    show String.join [diceFaceDiv (generateDiceNumber ((rollDice w8).randoms 0))] =
      diceFaceDiv 6
    have hr : (rollDice w8).randoms 0 = w8.randoms (0 + toLength (strToNumber "1")) := rfl
    have hx : (0 : ℕ) + toLength (strToNumber "1") = 1 := by rw [ht]
    rw [hr, hx]
    have hr1 : w8.randoms 1 = 5 / 6 := rfl
    rw [hr1]
    have hg : generateDiceNumber (5 / 6) = 6 := by
      unfold generateDiceNumber
      norm_num
    rw [hg]
    rfl
  rw [h1, h2]
  decide

/-- C8 (amended): `resetDice` is idempotent, and repeating `rollDice` leaves
the input field unchanged and regenerates a roll result of the same length;
but the displayed face values may differ between repetitions because each
roll consumes fresh random draws (see the counterexample), so `rollDice`
itself is not idempotent. -/
theorem reset_idempotent_roll_shape_invariant :
    (∀ w, resetDice (resetDice w) = resetDice w) ∧
    (∀ w, (rollDice (rollDice w)).diceInput = (rollDice w).diceInput) ∧
    (∀ w, (generateDiceNumbers (rollDice w).randoms (rollDice w).diceInput).length =
      (generateDiceNumbers w.randoms w.diceInput).length) := by
  refine ⟨fun w => rfl, fun w => rfl, fun w => ?_⟩
  show (generateDiceNumbersN (rollDice w).randoms
    (toLength (strToNumber (rollDice w).diceInput))).length =
      (generateDiceNumbersN w.randoms (toLength (strToNumber w.diceInput))).length
  rw [generateDiceNumbersN_length, generateDiceNumbersN_length]
  rfl

/-- C10: the renderer emits exactly one block per face value, in roll-result
order, each block being the template block of that element; on the face-value
range the block determines the value, so no block misrepresents its
element. -/
theorem renderDice_one_block_per_value (diceNumbers : List ℤ) :
    (diceNumbers.map diceFaceDiv).length = diceNumbers.length ∧
    (∀ i : ℕ, (diceNumbers.map diceFaceDiv).get? i =
      Option.map diceFaceDiv (diceNumbers.get? i)) ∧
    renderDice diceNumbers = String.join (diceNumbers.map diceFaceDiv) ∧
    ∀ a b : ℤ, 1 ≤ a → a ≤ 6 → 1 ≤ b → b ≤ 6 → diceFaceDiv a = diceFaceDiv b → a = b := by
  refine ⟨by simp, fun i => by simp, rfl, ?_⟩
  intro a b ha1 ha6 hb1 hb6 h
  interval_cases a <;> interval_cases b <;> first | rfl | exact absurd h (by decide)

/-- Witness for C10 at the concrete roll result `[2, 5]` and the concrete
face-value pair `2, 2`. -/
theorem renderDice_one_block_per_value_witness :
    (([(2 : ℤ), 5]).map diceFaceDiv).length = ([(2 : ℤ), 5]).length ∧ (2 : ℤ) = 2 :=
  ⟨(renderDice_one_block_per_value [2, 5]).1,
    (renderDice_one_block_per_value [2, 5]).2.2.2 2 2 (by decide) (by decide)
      (by decide) (by decide) rfl⟩
